import Mathlib

/-!
Verification of the agent-payroll core against its specification.

The development shallowly embeds the Python sources:
  - `src/economics/ledger.py`   (MasterCompensationEngine: ledger state, transfer_funds)
  - `src/citadel/__init__.py`   (Citadel: verify_checksum_integrity, verify_all_invariants)
  - `src/citadel/verifier.py`   (Z3Verifier: verify_theorem, _stub_verify, _define_theorems)
  - `src/hooks/__init__.py`     (HookManager: _parse_manifest, execute_phase)

Money values (Python floats) are embedded as rationals; machine-level float
rounding is outside the scope of the claims checked here.  SHA-256 is
implemented executably below so that the transaction-checksum behaviour of the
code can be evaluated inside Lean.
-/

set_option maxRecDepth 100000

attribute [local semireducible] Rat.add Rat.mul Rat.sub Rat.inv

namespace AgentPayroll

/-! ## SHA-256, executable, over lists of bytes (naturals < 256) -/

/-- Truncate to a 32-bit word. -/
def u32 (n : ℕ) : ℕ := n % 4294967296

/-- Rotate a 32-bit word right by `n` bits. -/
def rotr (n x : ℕ) : ℕ := u32 ((x >>> n) ||| (x <<< (32 - n)))

/-- SHA-256 small sigma 0. -/
def ssig0 (x : ℕ) : ℕ := (rotr 7 x) ^^^ (rotr 18 x) ^^^ (x >>> 3)

/-- SHA-256 small sigma 1. -/
def ssig1 (x : ℕ) : ℕ := (rotr 17 x) ^^^ (rotr 19 x) ^^^ (x >>> 10)

/-- SHA-256 big sigma 0. -/
def bsig0 (x : ℕ) : ℕ := (rotr 2 x) ^^^ (rotr 13 x) ^^^ (rotr 22 x)

/-- SHA-256 big sigma 1. -/
def bsig1 (x : ℕ) : ℕ := (rotr 6 x) ^^^ (rotr 11 x) ^^^ (rotr 25 x)

/-- SHA-256 choice function; `4294967295 - e` is bitwise complement of a 32-bit word. -/
def chf (e f g : ℕ) : ℕ := (e &&& f) ^^^ ((4294967295 - e) &&& g)

/-- SHA-256 majority function. -/
def majf (a b c : ℕ) : ℕ := (a &&& b) ^^^ (a &&& c) ^^^ (b &&& c)

/-- SHA-256 round constants (FIPS 180-4, written in decimal). -/
def kTable : List ℕ :=
  [1116352408, 1899447441, 3049323471, 3921009573,
   961987163, 1508970993, 2453635748, 2870763221,
   3624381080, 310598401, 607225278, 1426881987,
   1925078388, 2162078206, 2614888103, 3248222580,
   3835390401, 4022224774, 264347078, 604807628,
   770255983, 1249150122, 1555081692, 1996064986,
   2554220882, 2821834349, 2952996808, 3210313671,
   3336571891, 3584528711, 113926993, 338241895,
   666307205, 773529912, 1294757372, 1396182291,
   1695183700, 1986661051, 2177026350, 2456956037,
   2730485921, 2820302411, 3259730800, 3345764771,
   3516065817, 3600352804, 4094571909, 275423344,
   430227734, 506948616, 659060556, 883997877,
   958139571, 1322822218, 1537002063, 1747873779,
   1955562222, 2024104815, 2227730452, 2361852424,
   2428436474, 2756734187, 3204031479, 3329325298]

/-- SHA-256 initial hash values (FIPS 180-4, written in decimal). -/
def hInit : List ℕ :=
  [1779033703, 3144134277, 1013904242, 2773480762,
   1359893119, 2600822924, 528734635, 1541459225]

/-- Extend a 16-word message block by `fuel` further schedule words. -/
def extendW : ℕ → List ℕ → List ℕ
  | 0, ws => ws
  | fuel + 1, ws =>
    let n := ws.length
    extendW fuel
      (ws ++ [u32 (ssig1 (ws.getD (n - 2) 0) + ws.getD (n - 7) 0 +
                   ssig0 (ws.getD (n - 15) 0) + ws.getD (n - 16) 0)])

/-- One SHA-256 compression round on the 8-word working state; `kw` is `k[i] + w[i]`. -/
def roundStep (kw : ℕ) : List ℕ → List ℕ
  | [a, b, c, d, e, f, g, h] =>
    let t1 := u32 (h + bsig1 e + chf e f g + kw)
    let t2 := u32 (bsig0 a + majf a b c)
    [u32 (t1 + t2), a, b, c, u32 (d + t1), e, f, g]
  | st => st

/-- Compress one 16-word block into the running hash. -/
def compressBlock (hs : List ℕ) (block : List ℕ) : List ℕ :=
  let ws := extendW 48 block
  let fin := (List.range 64).foldl
    (fun st i => roundStep (u32 (kTable.getD i 0 + ws.getD i 0)) st) hs
  List.zipWith (fun x y => u32 (x + y)) hs fin

/-- SHA-256 padding: append `0x80`, zeros, and the 64-bit big-endian bit length. -/
def padBytes (msg : List ℕ) : List ℕ :=
  let len := msg.length
  let zeros := (119 - (len % 64)) % 64
  msg ++ [128] ++ List.replicate zeros 0 ++
    (List.range 8).map (fun i => ((8 * len) >>> (8 * (7 - i))) % 256)

/-- Pack padded bytes into big-endian 32-bit words (fuel-indexed recursion). -/
def bytesToWords : ℕ → List ℕ → List ℕ
  | 0, _ => []
  | fuel + 1, b0 :: b1 :: b2 :: b3 :: rest =>
    (((b0 * 256 + b1) * 256 + b2) * 256 + b3) :: bytesToWords fuel rest
  | _, _ => []

/-- Split a word list into 16-word blocks (fuel-indexed recursion). -/
def chunk16 : ℕ → List ℕ → List (List ℕ)
  | 0, _ => []
  | _, [] => []
  | fuel + 1, ws => ws.take 16 :: chunk16 fuel (ws.drop 16)

/-- SHA-256 of a byte list, as eight 32-bit words. -/
def sha256Words (msg : List ℕ) : List ℕ :=
  let padded := padBytes msg
  let ws := bytesToWords padded.length padded
  (chunk16 ws.length ws).foldl compressBlock hInit

/-- Lower-case hex digit. -/
def hexChar (n : ℕ) : Char := if n < 10 then Char.ofNat (48 + n) else Char.ofNat (87 + n)

/-- Eight hex characters of a 32-bit word. -/
def wordHex (w : ℕ) : List Char := (List.range 8).map (fun i => hexChar ((w >>> (4 * (7 - i))) % 16))

/-- SHA-256 hex digest of a byte list, mirroring `hashlib.sha256(...).hexdigest()`. -/
def sha256_hexdigest (msg : List ℕ) : String := String.mk ((sha256Words msg).flatMap wordHex)

/-- UTF-8 bytes of a string; all strings serialized in this development are ASCII,
so this is the byte-for-byte encoding `str.encode()` produces. -/
def str_bytes (s : String) : List ℕ := s.data.map Char.toNat

/-- SHA-256 hex digest of (the UTF-8 bytes of) a string. -/
def sha256_hex (s : String) : String := sha256_hexdigest (str_bytes s)

/-- Sanity check of the SHA-256 implementation against the standard test vector. -/
theorem sha256_hex_abc :
    sha256_hex "abc" = "ba7816bf8f01cfea414140de5dae2223b00361a396177a9cb410ff61f20015ad" := by
  decide

/-! ## Ledger data model (`src/economics/ledger.py`)

Defaults mirror `AgentFinancials` and the constants in `src/core/constants.py`
(`INITIAL_AGENT_BALANCE = 100.00`, `INITIAL_SYSTEM_BANK_BALANCE = 10000.00`).
The `performance` and `metadata` sub-dicts of an agent and the ledger
`metadata` block are not touched by any operation a claim is about and are
omitted from the state. -/

/-- Agent financial state (`AgentFinancials` dataclass). -/
structure AgentFinancials where
  balance : ℚ := 100
  escrow_hold : ℚ := 0
  lifetime_earnings : ℚ := 0
  debt_ceiling : ℚ := -100
deriving DecidableEq

/-- One entry of the ledger `agents` map. -/
structure Agent where
  name : String
  financials : AgentFinancials
deriving DecidableEq

/-- The `system_bank` block of the ledger. -/
structure SystemBank where
  balance : ℚ := 10000
  total_tax_collected : ℚ := 0
  total_bonds_burned : ℚ := 0
deriving DecidableEq

/-- The transaction dict built inside `transfer_funds` (dict keys `tx_id`,
`timestamp`, `from`, `to`, `amount`, `type`, `task_ref`, `description`,
`checksum`, in that insertion order). -/
structure Transaction where
  tx_id : String
  timestamp : String
  from_agent : String
  to_agent : String
  amount : ℚ
  tx_type : String
  task_ref : Option String
  description : Option String
  checksum : String
deriving DecidableEq

/-- In-memory ledger state (`self._ledger`): system bank, agents map
(insertion-ordered association list, like a Python dict), transaction log. -/
structure LedgerState where
  system_bank : SystemBank := {}
  agents : List (String × Agent) := []
  transaction_log : List Transaction := []
deriving DecidableEq

/-- Python `repr` of a float: for an integral value `n` it prints `n.0`, which
is the only case the concrete theorems below evaluate; non-integral rationals
are rendered as `num/den`, a form no theorem in this file relies on. -/
def pyFloatRepr (q : ℚ) : String :=
  if q.den = 1 then toString q.num ++ ".0" else toString q.num ++ "/" ++ toString q.den

/-- JSON rendering of a string value; the ids, timestamps and type tags
serialized in this development contain no characters that JSON escapes. -/
def json_str (s : String) : String := "\"" ++ s ++ "\""

/-- JSON rendering of an optional string (Python `None` becomes `null`). -/
def json_opt_str : Option String → String
  | none => "null"
  | some s => json_str s

/-- Python `repr` of a simple string (single quotes). -/
def py_str (s : String) : String := "\x27" ++ s ++ "\x27"

/-- Python `repr` of an optional string (`None` or a quoted string). -/
def py_opt_str : Option String → String
  | none => "None"
  | some s => py_str s

/-- The string `json.dumps(tx_copy, sort_keys=True)` produces for the
transaction dict with the `checksum` key removed: keys in sorted order
`amount, description, from, task_ref, timestamp, to, tx_id, type`, rendered
with `": "` and `", "` separators. -/
def tx_json_canonical (tx : Transaction) : String :=
  "\x7b\"amount\": " ++ pyFloatRepr tx.amount ++
  ", \"description\": " ++ json_opt_str tx.description ++
  ", \"from\": " ++ json_str tx.from_agent ++
  ", \"task_ref\": " ++ json_opt_str tx.task_ref ++
  ", \"timestamp\": " ++ json_str tx.timestamp ++
  ", \"to\": " ++ json_str tx.to_agent ++
  ", \"tx_id\": " ++ json_str tx.tx_id ++
  ", \"type\": " ++ json_str tx.tx_type ++ "\x7d"

/-- `MasterCompensationEngine._compute_transaction_checksum`: SHA-256 hex digest
of the canonically JSON-serialized transaction without its `checksum` field. -/
def compute_transaction_checksum (tx : Transaction) : String :=
  sha256_hex (tx_json_canonical tx)

/-- The string `str(tx_copy)` produces for the transaction dict with the
`checksum` key removed: Python dict repr, keys in insertion order
`tx_id, timestamp, from, to, amount, type, task_ref, description`, string
values single-quoted, `None` for missing optionals. -/
def tx_str_repr (tx : Transaction) : String :=
  "\x7b\x27tx_id\x27: " ++ py_str tx.tx_id ++
  ", \x27timestamp\x27: " ++ py_str tx.timestamp ++
  ", \x27from\x27: " ++ py_str tx.from_agent ++
  ", \x27to\x27: " ++ py_str tx.to_agent ++
  ", \x27amount\x27: " ++ pyFloatRepr tx.amount ++
  ", \x27type\x27: " ++ py_str tx.tx_type ++
  ", \x27task_ref\x27: " ++ py_opt_str tx.task_ref ++
  ", \x27description\x27: " ++ py_opt_str tx.description ++ "\x7d"

/-- First-match lookup in the agents association list (Python dict access). -/
def lookup_agent (k : String) : List (String × Agent) → Option Agent
  | [] => none
  | (k₂, a) :: t => if k₂ = k then some a else lookup_agent k t

/-- Add `d` to the balance of agent `k` (Python
`agents[k]["financials"]["balance"] += d`); keys are unique in a dict, so
updating the first match is exact. -/
def update_balance (k : String) (d : ℚ) : List (String × Agent) → List (String × Agent)
  | [] => []
  | (k₂, a) :: t =>
    if k₂ = k then
      (k₂, { a with financials := { a.financials with balance := a.financials.balance + d } }) :: t
    else
      (k₂, a) :: update_balance k d t

/-- The transaction record `transfer_funds` builds and commits: the dict with
`checksum` first set to the empty string and then filled in by
`_compute_transaction_checksum` over the other fields. -/
def mk_transaction (from_agent to_agent : String) (amount : ℚ) (tx_type : String)
    (task_ref description : Option String) (tx_id timestamp : String) : Transaction :=
  let tx0 : Transaction :=
    ⟨tx_id, timestamp, from_agent, to_agent, amount, tx_type, task_ref, description, ""⟩
  { tx0 with checksum := compute_transaction_checksum tx0 }

/-- `MasterCompensationEngine.transfer_funds`.  The runtime-generated
`uuid.uuid4()` and `datetime.now()` values are passed in explicitly as
`tx_id` and `timestamp`.  Returns the Python return value (`Optional[str]`)
together with the ledger state after the call; persistence I/O is outside the
state modelled here.  Mirrors the source exactly: membership checks on both
agents, the `balance < amount` check, checksum computation over the
checksum-less dict, payer debit then recipient credit, log append. -/
def transfer_funds (s : LedgerState) (from_agent to_agent : String) (amount : ℚ)
    (tx_type : String) (task_ref description : Option String)
    (tx_id timestamp : String) : Option String × LedgerState :=
  match lookup_agent from_agent s.agents, lookup_agent to_agent s.agents with
  | some payer, some _ =>
    if payer.financials.balance < amount then (none, s)
    else
      let tx := mk_transaction from_agent to_agent amount tx_type task_ref description tx_id timestamp
      let agents₁ := update_balance from_agent (-amount) s.agents
      let agents₂ := update_balance to_agent amount agents₁
      (some tx_id, { s with agents := agents₂, transaction_log := s.transaction_log ++ [tx] })
  | _, _ => (none, s)

/-- `MasterCompensationEngine.get_agent_balance`. -/
def get_agent_balance (s : LedgerState) (agent_id : String) : Option ℚ :=
  match lookup_agent agent_id s.agents with
  | none => none
  | some a => some a.financials.balance

/-- Agent record as `create_agent` stores it: `asdict(AgentFinancials())`. -/
def create_agent_record (name : String) : Agent := ⟨name, {}⟩

/-- Ledger state after creating agents `agent_a` and `agent_b` with default
financials (the setup of the spec scenarios and of `tests/test_ledger.py`). -/
def two_agent_ledger : LedgerState :=
  { system_bank := {}
    agents := [("agent_a", create_agent_record "Agent A"),
               ("agent_b", create_agent_record "Agent B")]
    transaction_log := [] }

/-- Sum of the balances of an agent map. -/
def balances_sum (l : List (String × Agent)) : ℚ :=
  (l.map (fun p => p.2.financials.balance)).sum

/-- Sum of all agent balances plus the system reserve. -/
def total_wealth (s : LedgerState) : ℚ :=
  s.system_bank.balance + balances_sum s.agents

/-! ## The Citadel verifier (`src/citadel/__init__.py`, `src/citadel/verifier.py`)

`VerificationResult` is modelled by its `is_valid` and `theorem` fields; the
free-text `reasoning` and `error_details` fields carry no content any claim is
about.  Keyword arguments (`**kwargs`) are modelled as an association list of
variable name and value. -/

/-- Result of one verification (`VerificationResult` dataclass; the Python
field `theorem` is `theorem_name` here because `theorem` is a Lean keyword). -/
structure VerificationResult where
  is_valid : Bool
  theorem_name : String
deriving DecidableEq

/-- A theorem definition for the verifier (`Theorem` dataclass; the constraint
and goal formulas are kept as the literal strings the source holds, their
mathematical meaning is given by `solver_verdict` and the adequacy lemmas). -/
structure VTheorem where
  name : String
  -- the Python field is `variables`, a reserved word in Lean
  vars : List String
  constraints : List String
  goal : String
  description : String

/-- First-match lookup in a string-keyed association list (Python dict access). -/
def dict_get (k : String) : List (String × α) → Option α
  | [] => none
  | (k₂, v) :: t => if k₂ = k then some v else dict_get k t

/-- `kwargs.get(k, default)`. -/
def kw_get (kw : List (String × ℚ)) (k : String) (dflt : ℚ) : ℚ :=
  (dict_get k kw).getD dflt

/-- `Z3Verifier._define_theorems`: the four built-in theorems, keyed by their
dict keys; the `name` fields hold the display names exactly as in the source. -/
def define_theorems : List (String × VTheorem) :=
  [("conservation",
    ⟨"Conservation of Wealth",
     ["bank_pre", "agent_pre", "reward", "tax", "bank_post", "agent_post"],
     ["bank_post == bank_pre + tax - reward", "agent_post == agent_pre + reward - tax"],
     "bank_pre + agent_pre == bank_post + agent_post",
     "Total system wealth must remain constant in transactions"⟩),
   ("solvency",
    ⟨"Solvency Constraint",
     ["balance", "transaction_amount"],
     [],
     "balance >= transaction_amount",
     "Agent must have sufficient funds for transactions"⟩),
   ("debt_ceiling",
    ⟨"Debt Ceiling Constraint",
     ["balance", "debt_ceiling"],
     [],
     "balance >= debt_ceiling",
     "Agent balance cannot exceed debt ceiling"⟩),
   ("non_negative",
    ⟨"Non-Negative Balance",
     ["balance"],
     [],
     "balance >= 0",
     "System balances should remain non-negative"⟩)]

/-- `Z3Verifier._stub_verify`: the arithmetic fallback backend.  Mirrors the
source exactly, including its dispatch on `theorem.name` (the display name,
e.g. `Conservation of Wealth`) being compared against the dict keys
(`conservation` etc.), and the `1e-6` tolerance of the conservation branch. -/
def stub_verify (thm : VTheorem) (kw : List (String × ℚ)) : VerificationResult :=
  if thm.name = "conservation" then
    let bank_pre := kw_get kw "bank_pre" 0
    let agent_pre := kw_get kw "agent_pre" 0
    let bank_post := kw_get kw "bank_post" 0
    let agent_post := kw_get kw "agent_post" 0
    let wealth_pre := bank_pre + agent_pre
    let wealth_post := bank_post + agent_post
    ⟨decide (|wealth_pre - wealth_post| < 1 / 1000000), thm.name⟩
  else if thm.name = "solvency" then
    ⟨decide (kw_get kw "balance" 0 ≥ kw_get kw "transaction_amount" 0), thm.name⟩
  else if thm.name = "debt_ceiling" then
    ⟨decide (kw_get kw "balance" 0 ≥ kw_get kw "debt_ceiling" 0), thm.name⟩
  else if thm.name = "non_negative" then
    ⟨decide (kw_get kw "balance" 0 ≥ 0), thm.name⟩
  else
    ⟨false, thm.name⟩

/-- Verdict of the Z3 backend path of `Z3Verifier.verify_theorem`.  The source
asserts the theorem's constraints, one equality per supplied binding of a
theorem variable, and the negation of the goal, and reports valid exactly when
the solver finds this unsatisfiable over the reals.  For the four built-in
theorems that unsatisfiability is decided here in closed form; the adequacy
lemmas `conservation_query_unsat` and `pointwise_query_unsat_iff` below prove
the closed forms equivalent to the unsatisfiability statements (for linear
rational constraints, satisfiability over the reals and over the rationals
coincide). -/
def solver_verdict (name : String) (kw : List (String × ℚ)) : Bool :=
  if name = "conservation" then
    -- the two constraints alone entail the goal, so the negated-goal query
    -- is unsatisfiable whatever the bindings are
    true
  else if name = "solvency" then
    match dict_get "balance" kw, dict_get "transaction_amount" kw with
    | some b, some t => decide (b ≥ t)
    | _, _ => false
  else if name = "debt_ceiling" then
    match dict_get "balance" kw, dict_get "debt_ceiling" kw with
    | some b, some c => decide (b ≥ c)
    | _, _ => false
  else if name = "non_negative" then
    match dict_get "balance" kw with
    | some b => decide (b ≥ 0)
    | none => false
  else
    false

/-- Adequacy of `solver_verdict` for `conservation`: the Z3 query (the two
constraints plus the negated goal) is unsatisfiable outright, so adding any
binding equalities keeps it unsatisfiable and the solver path always reports
valid for this theorem. -/
theorem conservation_query_unsat :
    ¬ ∃ bank_pre agent_pre reward tax bank_post agent_post : ℚ,
        bank_post = bank_pre + tax - reward ∧
        agent_post = agent_pre + reward - tax ∧
        bank_pre + agent_pre ≠ bank_post + agent_post := by
  rintro ⟨bp, ap, r, t, bq, aq, h1, h2, h3⟩
  apply h3
  rw [h1, h2]
  ring

/-- Adequacy of `solver_verdict` for the constraint-free theorems: with both
variables pinned to supplied values `b` and `t`, the negated-goal query
`x = b and y = t and not (x >= y)` is unsatisfiable exactly when `b >= t`. -/
theorem pointwise_query_unsat_iff (b t : ℚ) :
    (¬ ∃ x y : ℚ, x = b ∧ y = t ∧ ¬ x ≥ y) ↔ b ≥ t := by
  constructor
  · intro h
    by_contra hbt
    exact h ⟨b, t, rfl, rfl, hbt⟩
  · rintro hbt ⟨x, y, rfl, rfl, hxy⟩
    exact hxy hbt

/-- `Z3Verifier.verify_theorem`, parametrized by whether the Z3 backend is
available (`Z3_AVAILABLE and self.solver`): unknown names give an invalid
result, otherwise the stub or the solver path decides. -/
def verify_theorem (z3_available : Bool) (name : String)
    (kw : List (String × ℚ)) : VerificationResult :=
  match dict_get name define_theorems with
  | none => ⟨false, name⟩
  | some thm =>
    if z3_available = false then stub_verify thm kw
    else ⟨solver_verdict name kw, thm.name⟩

/-- `Citadel.verify_checksum_integrity`: recompute SHA-256 over `str(tx_copy)`
(the Python dict repr, checksum key removed) and compare with the stored
checksum. -/
def verify_checksum_integrity (tx : Transaction) : VerificationResult :=
  ⟨decide (tx.checksum = sha256_hex (tx_str_repr tx)), "Checksum Integrity"⟩

/-- `Citadel.verify_all_invariants`, parametrized by Z3 availability; returns
the `is_valid` component (`all(c.is_valid for c in checks)`).  The checksum
check always runs; solvency and debt-ceiling run when the payer is not
`system_bank` and exists in the ledger (the `debt_ceiling` key is always
present in stored financials); the non-negative check runs when the recipient
is `system_bank`. -/
def verify_all_invariants (z3_available : Bool) (tx : Transaction)
    (ledger_state : LedgerState) : Bool :=
  let c1 := [(verify_checksum_integrity tx).is_valid]
  let c2 :=
    if tx.from_agent ≠ "system_bank" then
      match lookup_agent tx.from_agent ledger_state.agents with
      | some a =>
        [(verify_theorem z3_available "solvency"
            [("balance", a.financials.balance),
             ("transaction_amount", tx.amount)]).is_valid]
      | none => []
    else []
  let c3 :=
    if tx.from_agent ≠ "system_bank" then
      match lookup_agent tx.from_agent ledger_state.agents with
      | some a =>
        [(verify_theorem z3_available "debt_ceiling"
            [("balance", a.financials.balance),
             ("debt_ceiling", a.financials.debt_ceiling)]).is_valid]
      | none => []
    else []
  let c4 :=
    if tx.to_agent = "system_bank" then
      [(verify_theorem z3_available "non_negative"
          [("balance", ledger_state.system_bank.balance + tx.amount)]).is_valid]
    else []
  (c1 ++ c2 ++ c3 ++ c4).all id

/-! ## Hook pipeline (`src/hooks/__init__.py`)

`_execute_hook` is a placeholder in the source ("In production, hooks would be
dynamically loaded from their module paths and executed"), so the pipeline
functions are parametrized by the hook-execution function `run`; the source's
placeholder behaviour is `execute_hook_stub`.  Payloads (`Dict[str, Any]`) are
association lists of simple Python values, enough to express the truthiness
tests the pipeline performs. -/

/-- Hook execution phases. -/
inductive HookPhase where
  | PRE_PROMPT
  | PRE_TOOL
  | POST_TOOL
deriving DecidableEq

/-- Hook definition (`Hook` dataclass; the opaque `config` dict is not
consulted by the pipeline logic and is omitted). -/
structure Hook where
  id : String
  phase : HookPhase
  priority : Int
  module_path : String
  target_tool : Option String := none
  enabled : Bool := true
deriving DecidableEq

/-- The sort key of `Hook.__lt__` / `list.sort()`: compare priorities. -/
def hook_le (a b : Hook) : Prop := a.priority ≤ b.priority

instance : DecidableRel hook_le := fun a b => Int.decLe a.priority b.priority

instance : IsTotal Hook hook_le := ⟨fun a b => Int.le_total a.priority b.priority⟩

instance : IsTrans Hook hook_le := ⟨fun _ _ _ hab hbc => le_trans hab hbc⟩

/-- `HookManager._parse_manifest`: hooks are appended in manifest order and
then sorted with Python's stable `list.sort()` on the priority key; insertion
sort by `priority ≤ priority` is that stable ascending sort. -/
def register_hooks (manifest : List Hook) : List Hook :=
  List.insertionSort hook_le manifest

/-- A simple Python value, as far as payload truthiness is concerned. -/
inductive PyValue where
  | vNone
  | vBool (b : Bool)
  | vInt (n : Int)
  | vStr (s : String)
deriving DecidableEq

/-- Python truthiness of a `PyValue`. -/
def truthy : PyValue → Bool
  | .vNone => false
  | .vBool b => b
  | .vInt n => decide (n ≠ 0)
  | .vStr s => decide (s ≠ "")

/-- A hook payload: `Dict[str, Any]` as an association list. -/
abbrev Payload := List (String × PyValue)

/-- Truthiness of `payload.get(k)` (a missing key gives `None`, which is falsy). -/
def get_truthy (p : Payload) (k : String) : Bool :=
  match dict_get k p with
  | none => false
  | some v => truthy v

/-- The loop exit test `payload is None or payload.get("_halt")`. -/
def halt_signal : Option Payload → Bool
  | none => true
  | some p => get_truthy p "_halt"

/-- Python truthiness of the `target_tool` argument (`None` and `""` are falsy). -/
def opt_tool_truthy : Option String → Bool
  | none => false
  | some s => decide (s ≠ "")

/-- Selection of `relevant_hooks` in `HookManager.execute_phase`: filter the
manager's hook list by phase and enabled flag; then, only for `PRE_TOOL` with
a truthy `target_tool`, keep hooks with no target filter or a matching one. -/
def relevant_hooks (hooks : List Hook) (phase : HookPhase)
    (target_tool : Option String) : List Hook :=
  let rel := hooks.filter (fun h => decide (h.phase = phase) && h.enabled)
  if decide (phase = HookPhase.PRE_TOOL) && opt_tool_truthy target_tool then
    rel.filter (fun h => decide (h.target_tool = none) || decide (h.target_tool = target_tool))
  else
    rel

/-- The hook loop of `execute_phase`: run each hook on the current payload,
stopping after any hook whose result is `None` or carries a truthy `_halt`
key.  Returns the final payload (possibly `None`) and the list of hooks that
were invoked, in order. -/
def run_hooks (run : Hook → Payload → Option Payload) :
    List Hook → Payload → Option Payload × List Hook
  | [], p => (some p, [])
  | h :: t, p =>
    match run h p with
    | none => (none, [h])
    | some q =>
      if get_truthy q "_halt" then (some q, [h])
      else
        let r := run_hooks run t q
        (r.1, h :: r.2)

/-- `HookManager.execute_phase` (exceptions raised by a hook propagate and are
outside the no-exception executions modelled here). -/
def execute_phase (run : Hook → Payload → Option Payload) (hooks : List Hook)
    (phase : HookPhase) (target_tool : Option String) (payload : Payload) :
    Option Payload × List Hook :=
  run_hooks run (relevant_hooks hooks phase target_tool) payload

/-- The source's placeholder `_execute_hook`: returns the payload unchanged. -/
def execute_hook_stub : Hook → Payload → Option Payload := fun _ p => some p

/-! ## Helper lemmas -/

/-- Updating the balance of a present key adds exactly the delta to the sum of
balances. -/
theorem sum_update_balance (k : String) (d : ℚ) (l : List (String × Agent))
    (h : (lookup_agent k l).isSome = true) :
    balances_sum (update_balance k d l) = balances_sum l + d := by
  induction l with
  | nil => simp [lookup_agent] at h
  | cons hd t ih =>
    obtain ⟨k₂, a⟩ := hd
    by_cases hk : k₂ = k
    · simp only [update_balance, if_pos hk, balances_sum, List.map_cons, List.sum_cons]
      ring
    · have ht : (lookup_agent k t).isSome = true := by
        simpa [lookup_agent, hk] using h
      simp only [update_balance, if_neg hk, balances_sum, List.map_cons, List.sum_cons] at ih ⊢
      rw [ih ht]
      ring

/-- `update_balance` neither adds nor removes keys. -/
theorem lookup_update_isSome (k k₂ : String) (d : ℚ) (l : List (String × Agent)) :
    (lookup_agent k (update_balance k₂ d l)).isSome = (lookup_agent k l).isSome := by
  induction l with
  | nil => rfl
  | cons hd t ih =>
    obtain ⟨k₃, a⟩ := hd
    by_cases h32 : k₃ = k₂
    · rw [update_balance, if_pos h32]
      simp only [lookup_agent]
      by_cases h3k : k₃ = k <;> simp [h3k]
    · rw [update_balance, if_neg h32]
      simp only [lookup_agent]
      by_cases h3k : k₃ = k <;> simp [h3k, ih]

/-- If no hook execution ever signals a halt, the loop invokes every hook. -/
theorem run_hooks_no_halt (run : Hook → Payload → Option Payload)
    (hnh : ∀ hk q, halt_signal (run hk q) = false) :
    ∀ (hs : List Hook) (p : Payload), (run_hooks run hs p).2 = hs := by
  intro hs
  induction hs with
  | nil => intro p; rfl
  | cons h t ih =>
    intro p
    have hh := hnh h p
    rcases hr : run h p with _ | q
    · rw [hr] at hh
      simp [halt_signal] at hh
    · rw [hr] at hh
      have hq : get_truthy q "_halt" = false := hh
      simp [run_hooks, hr, hq, ih]

/-- The source's placeholder hook execution never halts on a payload without a
truthy halt marker, so it runs the whole list and returns the payload. -/
theorem run_hooks_stub (p : Payload) (hp : get_truthy p "_halt" = false) :
    ∀ hs : List Hook, run_hooks execute_hook_stub hs p = (some p, hs) := by
  intro hs
  induction hs with
  | nil => rfl
  | cons h t ih => simp [run_hooks, execute_hook_stub, hp, ih]

/-- Inserting an element below every member of a list puts it in front. -/
theorem orderedInsert_cons_of_forall_le (a : Hook) (l : List Hook)
    (h : ∀ b ∈ l, hook_le a b) :
    List.orderedInsert hook_le a l = a :: l := by
  cases l with
  | nil => rfl
  | cons b t =>
    rw [List.orderedInsert, if_pos (h b (List.mem_cons_self b t))]

/-- Filtering commutes with ordered insertion into a sorted list. -/
theorem filter_orderedInsert (f : Hook → Bool) (a : Hook) (l : List Hook)
    (hl : List.Sorted hook_le l) :
    (List.orderedInsert hook_le a l).filter f
      = if f a then List.orderedInsert hook_le a (l.filter f) else l.filter f := by
  induction l with
  | nil =>
    by_cases hfa : f a = true <;> simp [List.orderedInsert, List.filter_cons, hfa]
  | cons b t ih =>
    have hst : List.Sorted hook_le t := hl.of_cons
    by_cases hab : hook_le a b
    · rw [List.orderedInsert, if_pos hab]
      by_cases hfa : f a = true
      · have hall : ∀ c ∈ (b :: t).filter f, hook_le a c := by
          intro c hc
          rcases List.mem_filter.mp hc with ⟨hcmem, _⟩
          rcases List.mem_cons.mp hcmem with rfl | hct
          · exact hab
          · exact le_trans hab (List.rel_of_sorted_cons hl c hct)
        rw [if_pos hfa, List.filter_cons_of_pos hfa,
          orderedInsert_cons_of_forall_le a _ hall]
      · rw [if_neg hfa, List.filter_cons_of_neg hfa]
    · rw [List.orderedInsert, if_neg hab]
      by_cases hfb : f b = true
      · by_cases hfa : f a = true
        · rw [if_pos hfa, List.filter_cons_of_pos hfb, ih hst, if_pos hfa,
            List.filter_cons_of_pos hfb, List.orderedInsert, if_neg hab]
        · rw [if_neg hfa, List.filter_cons_of_pos hfb, ih hst, if_neg hfa,
            List.filter_cons_of_pos hfb]
      · rw [List.filter_cons_of_neg hfb, ih hst, List.filter_cons_of_neg hfb]

/-- Filtering commutes with insertion sort (stability of the sort). -/
theorem filter_insertionSort (f : Hook → Bool) (l : List Hook) :
    (List.insertionSort hook_le l).filter f = List.insertionSort hook_le (l.filter f) := by
  induction l with
  | nil => rfl
  | cons a l ih =>
    rw [List.insertionSort,
      filter_orderedInsert f a _ (List.sorted_insertionSort hook_le l), ih,
      List.filter_cons]
    cases hfa : f a
    · simp
    · simp [List.insertionSort]

/-- If a prefix of the hook list runs through without any halt and the next
hook's execution signals a halt, the loop stops there: the invoked hooks are
the prefix plus the halting hook, and the halting hook's raw result (possibly
`None`) is returned. -/
theorem run_hooks_halt_append (run : Hook → Payload → Option Payload)
    (pre : List Hook) (hk : Hook) (t : List Hook) (p q : Payload)
    (hpre : run_hooks run pre p = (some q, pre))
    (hq : get_truthy q "_halt" = false)
    (hstop : halt_signal (run hk q) = true) :
    run_hooks run (pre ++ hk :: t) p = (run hk q, pre ++ [hk]) := by
  induction pre generalizing p with
  | nil =>
    have hpq : p = q := by
      have h1 := congrArg Prod.fst hpre
      simpa [run_hooks] using h1
    subst hpq
    rcases hr : run hk p with _ | r
    · simp [run_hooks, hr]
    · rw [hr] at hstop
      have hhr : get_truthy r "_halt" = true := hstop
      simp [run_hooks, hr, hhr]
  | cons a pre' ih =>
    rcases hr : run a p with _ | r
    · simp only [run_hooks, hr] at hpre
      exact absurd (congrArg Prod.fst hpre) (by simp)
    · by_cases hhr : get_truthy r "_halt" = true
      · simp only [run_hooks, hr, hhr, if_true] at hpre
        have h2 := congrArg Prod.snd hpre
        simp only at h2
        have hpre' : pre' = [] := by
          have := congrArg List.length h2
          simpa using this
        subst hpre'
        have h1 := congrArg Prod.fst hpre
        simp only at h1
        have hrq : r = q := by injection h1
        rw [hrq] at hhr
        rw [hq] at hhr
        exact absurd hhr (by simp)
      · have hhr' : get_truthy r "_halt" = false := by
          simpa using hhr
        rcases hrun : run_hooks run pre' r with ⟨r1, r2⟩
        simp only [run_hooks, hr, hhr', if_false, hrun] at hpre
        have h1 : r1 = some q := by
          have := congrArg Prod.fst hpre; simpa using this
        have h2 : r2 = pre' := by
          have := congrArg Prod.snd hpre
          simpa using this
        have hx : run_hooks run pre' r = (some q, pre') := by rw [hrun, h1, h2]
        have hrest := ih r hx
        simp [run_hooks, hr, hhr', hrest]

/-! ## Concrete fixtures for the claim evaluations -/

/-- A ledger with a single default agent (used for the self-transfer input). -/
def one_agent_ledger : LedgerState :=
  { system_bank := {}
    agents := [("agent_a", create_agent_record "Agent A")]
    transaction_log := [] }

/-- Placeholder transaction used only as the default of `List.getLastD`. -/
def dummy_transaction : Transaction := ⟨"", "", "", "", 0, "", none, none, ""⟩

/-- The committed transaction of the spec scenario: 30 from `agent_a` (balance
100) to `agent_b` (balance 100). -/
def scenario_tx : Transaction :=
  mk_transaction "agent_a" "agent_b" 30 "TRANSFER" none none "tx-1" "ts-1"

/-- Hooks with priorities 50, 10, 90 (the spec's hook-ordering example). -/
def hook_p50 : Hook := ⟨"hook_p50", .PRE_PROMPT, 50, "hooks.p50", none, true⟩

/-- Priority-10 hook of the ordering example. -/
def hook_p10 : Hook := ⟨"hook_p10", .PRE_PROMPT, 10, "hooks.p10", none, true⟩

/-- Priority-90 hook of the ordering example. -/
def hook_p90 : Hook := ⟨"hook_p90", .PRE_PROMPT, 90, "hooks.p90", none, true⟩

/-- First hook of the halt fixtures. -/
def hook_a : Hook := ⟨"hook_a", .PRE_PROMPT, 10, "hooks.a", none, true⟩

/-- Second hook of the halt fixtures. -/
def hook_b : Hook := ⟨"hook_b", .PRE_PROMPT, 20, "hooks.b", none, true⟩

/-- A hook execution in which `hook_a` returns an empty payload (an empty
dict, not `None`) and every other hook marks the payload. -/
def run_empty : Hook → Payload → Option Payload :=
  fun h _ => if h.id = "hook_a" then some [] else some [("seen", PyValue.vBool true)]

/-- A hook execution in which `hook_a` returns a payload with a truthy
`_halt` marker. -/
def run_halting : Hook → Payload → Option Payload :=
  fun h p => if h.id = "hook_a" then some [("_halt", PyValue.vBool true)] else some p

/-- An initial payload without a halt marker. -/
def pay0 : Payload := [("request", PyValue.vStr "r1")]

/-- A `PRE_TOOL` hook whose target filter names the tool `grep`. -/
def hook_targeted : Hook := ⟨"hook_targeted", .PRE_TOOL, 30, "hooks.t", some "grep", true⟩

/-- A `PRE_TOOL` hook with no target filter. -/
def hook_untargeted : Hook := ⟨"hook_untargeted", .PRE_TOOL, 40, "hooks.u", none, true⟩

/-! ## Claims -/

/-- Claim C1 (code_bug): the claim says every committed `transfer_funds` call
passes `verify_all_invariants` on the committed transaction and the
pre-transfer ledger state, and that a transfer failing any applicable check is
never committed.  In the code, `transfer_funds` never calls the verifier, and
`verify_all_invariants` applied to the committed transaction and the
pre-transfer state returns invalid (with either backend) for this plainly
well-formed transfer, because the checksum stored by the ledger is computed
over the canonical JSON serialization while the verifier recomputes it over
the Python `str()` repr: the transfer of 30 from `agent_a` (balance 100) to
`agent_b` commits, yet the verifier rejects its transaction. -/
theorem c1_commit_without_valid_verification :
    (transfer_funds two_agent_ledger "agent_a" "agent_b" 30 "TRANSFER" none none
        "tx-1" "ts-1").1.isSome = true
      ∧ verify_all_invariants true
          ((transfer_funds two_agent_ledger "agent_a" "agent_b" 30 "TRANSFER" none none
              "tx-1" "ts-1").2.transaction_log.getLastD dummy_transaction)
          two_agent_ledger = false
      ∧ verify_all_invariants false
          ((transfer_funds two_agent_ledger "agent_a" "agent_b" 30 "TRANSFER" none none
              "tx-1" "ts-1").2.transaction_log.getLastD dummy_transaction)
          two_agent_ledger = false := by
  refine ⟨by decide, by decide, by decide⟩

/-- Claim C2 (code_bug): the claim says `balance >= debt_ceiling` holds for
both accounts after every committed transaction, for every amount the
operation accepts.  `transfer_funds` accepts negative amounts (the only check
is `balance < amount`), so a committed transfer of -250 from `agent_a` to
`agent_b` (both at balance 100, debt ceiling -100) leaves `agent_b` at -150,
strictly below its debt ceiling. -/
theorem c2_committed_transfer_breaks_debt_ceiling :
    (transfer_funds two_agent_ledger "agent_a" "agent_b" (-250) "TRANSFER" none none
        "tx-1" "ts-1").1.isSome = true
      ∧ (lookup_agent "agent_b"
          (transfer_funds two_agent_ledger "agent_a" "agent_b" (-250) "TRANSFER" none none
              "tx-1" "ts-1").2.agents).map
          (fun a => decide (a.financials.balance < a.financials.debt_ceiling)) = some true
      ∧ get_agent_balance
          (transfer_funds two_agent_ledger "agent_a" "agent_b" (-250) "TRANSFER" none none
              "tx-1" "ts-1").2 "agent_b" = some (-150) := by
  refine ⟨by decide, by decide, by decide⟩

/-- Claim C3 (code_bug): the claim says any call with `amount < 0` is rejected
(returns `None`) before any mutation and leaves the ledger unchanged.
`transfer_funds` has no negative-amount check: a transfer of -50 between two
existing agents returns a transaction id, mutates both balances (the payer
ends at 150) and appends a transaction. -/
theorem c3_negative_amount_not_rejected :
    (transfer_funds two_agent_ledger "agent_a" "agent_b" (-50) "TRANSFER" none none
        "tx-1" "ts-1").1.isSome = true
      ∧ (transfer_funds two_agent_ledger "agent_a" "agent_b" (-50) "TRANSFER" none none
          "tx-1" "ts-1").2 ≠ two_agent_ledger
      ∧ get_agent_balance
          (transfer_funds two_agent_ledger "agent_a" "agent_b" (-50) "TRANSFER" none none
              "tx-1" "ts-1").2 "agent_a" = some 150
      ∧ (transfer_funds two_agent_ledger "agent_a" "agent_b" (-50) "TRANSFER" none none
          "tx-1" "ts-1").2.transaction_log.length = 1 := by
  refine ⟨by decide, by decide, by decide, by decide⟩

/-- Claim C4 (code_bug): the claim says re-verifying the stored checksum of a
transaction created by `transfer_funds`, the way the verifier's
checksum-integrity check does, returns valid.  The ledger computes the
checksum over `json.dumps(tx, sort_keys=True)` while
`verify_checksum_integrity` recomputes it over `str(tx_copy)` (different
quoting, key order and `None`/`null` rendering), so the check returns invalid
for the very transaction the scenario transfer commits, before any mutation at
all. -/
theorem c4_checksum_reverification_fails :
    (transfer_funds two_agent_ledger "agent_a" "agent_b" 30 "TRANSFER" none none
        "tx-1" "ts-1").2.transaction_log = [scenario_tx]
      ∧ (verify_checksum_integrity scenario_tx).is_valid = false := by
  refine ⟨by decide, by decide⟩

/-- Claim C5 (code_bug): the claim says the arithmetic fallback `_stub_verify`
returns the same verdict as the solver path of `verify_theorem` on every
concrete binding of the four built-in theorems.  `_stub_verify` dispatches on
`theorem.name`, which holds display names (`Solvency Constraint`, ...), never
the dict keys (`solvency`, ...) it compares against, so every branch is dead
and the stub returns invalid for all four theorems: on `solvency` with
balance 100 and amount 50 the solver path reports valid and the stub invalid,
and on the exact stub-mode conservation input that
`tests/unit/test_citadel_verifier.py` expects to be valid the stub reports
invalid. -/
theorem c5_backends_disagree :
    (verify_theorem true "solvency"
        [("balance", 100), ("transaction_amount", 50)]).is_valid = true
      ∧ (verify_theorem false "solvency"
          [("balance", 100), ("transaction_amount", 50)]).is_valid = false
      ∧ (verify_theorem false "conservation"
          [("bank_pre", 1000), ("agent_pre", 100), ("reward", 50), ("tax", 5),
           ("bank_post", 955), ("agent_post", 150)]).is_valid = false := by
  refine ⟨by decide, by decide, by decide⟩

/-- Claim C6 (confirmed): every committed `transfer_funds` operation preserves
the sum of all agent balances plus the system reserve. -/
theorem c6_transfer_conserves_wealth (s : LedgerState) (from_agent to_agent : String)
    (amount : ℚ) (tx_type : String) (task_ref description : Option String)
    (tx_id ts : String)
    (h : (transfer_funds s from_agent to_agent amount tx_type task_ref description
        tx_id ts).1.isSome = true) :
    total_wealth (transfer_funds s from_agent to_agent amount tx_type task_ref description
      tx_id ts).2 = total_wealth s := by
  rcases hfrom : lookup_agent from_agent s.agents with _ | payer
  · simp [transfer_funds, hfrom] at h
  rcases hto : lookup_agent to_agent s.agents with _ | rcpt
  · simp [transfer_funds, hfrom, hto] at h
  by_cases hb : payer.financials.balance < amount
  · simp [transfer_funds, hfrom, hto, hb] at h
  · have hfromS : (lookup_agent from_agent s.agents).isSome = true := by
      rw [hfrom]; rfl
    have hto1 : (lookup_agent to_agent
        (update_balance from_agent (-amount) s.agents)).isSome = true := by
      rw [lookup_update_isSome, hto]; rfl
    simp only [transfer_funds, hfrom, hto, if_neg hb, total_wealth]
    rw [sum_update_balance to_agent amount _ hto1,
      sum_update_balance from_agent (-amount) _ hfromS]
    ring

/-- Witness for C6: the spec scenario transfer (30 from `agent_a` to
`agent_b`, both at balance 100) commits and conserves total wealth. -/
theorem c6_transfer_conserves_wealth_witness :
    (transfer_funds two_agent_ledger "agent_a" "agent_b" 30 "TRANSFER" none none
        "tx-1" "ts-1").1.isSome = true
      ∧ total_wealth (transfer_funds two_agent_ledger "agent_a" "agent_b" 30 "TRANSFER"
          none none "tx-1" "ts-1").2 = total_wealth two_agent_ledger :=
  ⟨by decide,
   c6_transfer_conserves_wealth two_agent_ledger "agent_a" "agent_b" 30 "TRANSFER"
     none none "tx-1" "ts-1" (by decide)⟩

/-- Counterexample to claim C7 as stated: for a committed self-transfer
(`agent_a` to `agent_a`, amount 50, balance 100) the call returns a
transaction id but the payer's balance is not `old - amount` (nor is the
recipient's `old + amount`): the debit and credit cancel.  So it is false
that every call either returns an id with both balances updated by the
amount and one transaction appended, or returns `None` with nothing
changed. -/
theorem c7_all_or_nothing_counterexample :
    ¬ (((transfer_funds one_agent_ledger "agent_a" "agent_a" 50 "TRANSFER" none none
          "tx-1" "ts-1").1.isSome = true
        ∧ get_agent_balance (transfer_funds one_agent_ledger "agent_a" "agent_a" 50
            "TRANSFER" none none "tx-1" "ts-1").2 "agent_a"
            = (get_agent_balance one_agent_ledger "agent_a").map (fun b => b - 50)
        ∧ get_agent_balance (transfer_funds one_agent_ledger "agent_a" "agent_a" 50
            "TRANSFER" none none "tx-1" "ts-1").2 "agent_a"
            = (get_agent_balance one_agent_ledger "agent_a").map (fun b => b + 50)
        ∧ (transfer_funds one_agent_ledger "agent_a" "agent_a" 50 "TRANSFER" none none
            "tx-1" "ts-1").2.transaction_log.length
            = one_agent_ledger.transaction_log.length + 1)
      ∨ ((transfer_funds one_agent_ledger "agent_a" "agent_a" 50 "TRANSFER" none none
            "tx-1" "ts-1").1 = none
        ∧ (transfer_funds one_agent_ledger "agent_a" "agent_a" 50 "TRANSFER" none none
            "tx-1" "ts-1").2 = one_agent_ledger)) := by
  decide

/-- Claim C7 (corrected): `transfer_funds` is all-or-nothing in the precise
form the code computes: either it returns `None` and the state is unchanged,
or it returns the transaction id, the agents map is the payer debit followed
by the recipient credit (so a self-transfer nets to no balance change), the
system bank is untouched, and exactly the one new transaction is appended. -/
theorem c7_all_or_nothing_amended (s : LedgerState) (from_agent to_agent : String)
    (amount : ℚ) (tx_type : String) (task_ref description : Option String)
    (tx_id ts : String) :
    ((transfer_funds s from_agent to_agent amount tx_type task_ref description
          tx_id ts).1 = none
        ∧ (transfer_funds s from_agent to_agent amount tx_type task_ref description
            tx_id ts).2 = s)
      ∨ ((transfer_funds s from_agent to_agent amount tx_type task_ref description
            tx_id ts).1 = some tx_id
        ∧ (transfer_funds s from_agent to_agent amount tx_type task_ref description
            tx_id ts).2.agents
            = update_balance to_agent amount (update_balance from_agent (-amount) s.agents)
        ∧ (transfer_funds s from_agent to_agent amount tx_type task_ref description
            tx_id ts).2.system_bank = s.system_bank
        ∧ (transfer_funds s from_agent to_agent amount tx_type task_ref description
            tx_id ts).2.transaction_log
            = s.transaction_log
                ++ [mk_transaction from_agent to_agent amount tx_type task_ref description
                      tx_id ts]) := by
  rcases hfrom : lookup_agent from_agent s.agents with _ | payer
  · left; simp [transfer_funds, hfrom]
  rcases hto : lookup_agent to_agent s.agents with _ | rcpt
  · left; simp [transfer_funds, hfrom, hto]
  by_cases hb : payer.financials.balance < amount
  · left; simp [transfer_funds, hfrom, hto, hb]
  · right; simp [transfer_funds, hfrom, hto, hb]

/-- Claim C8 (confirmed): for any registration manifest, phase, tool and
payload, when no hook signals a halt `execute_phase` invokes exactly the
relevant hooks stably sorted by ascending priority: the invoked sequence is
the insertion sort (by priority, ties kept in registration order) of the
relevant hooks in registration order, and it is sorted by priority. -/
theorem c8_hooks_execute_in_priority_order (run : Hook → Payload → Option Payload)
    (manifest : List Hook) (phase : HookPhase) (tool : Option String) (p : Payload)
    (hnh : ∀ hk q, halt_signal (run hk q) = false) :
    (execute_phase run (register_hooks manifest) phase tool p).2
        = List.insertionSort hook_le (relevant_hooks manifest phase tool)
      ∧ List.Sorted hook_le (execute_phase run (register_hooks manifest) phase tool p).2 := by
  have hinv : (execute_phase run (register_hooks manifest) phase tool p).2
      = relevant_hooks (register_hooks manifest) phase tool :=
    run_hooks_no_halt run hnh _ _
  have hcomm : relevant_hooks (register_hooks manifest) phase tool
      = List.insertionSort hook_le (relevant_hooks manifest phase tool) := by
    by_cases hc : (decide (phase = HookPhase.PRE_TOOL) && opt_tool_truthy tool) = true
    · simp only [relevant_hooks, register_hooks]
      rw [if_pos hc, if_pos hc, filter_insertionSort, filter_insertionSort]
    · simp only [relevant_hooks, register_hooks]
      rw [if_neg hc, if_neg hc, filter_insertionSort]
  constructor
  · rw [hinv, hcomm]
  · rw [hinv, hcomm]
    exact List.sorted_insertionSort hook_le _

/-- Witness for C8: the spec's ordering example, hooks registered with
priorities [50, 10, 90] and a hook execution that never halts (it returns an
empty, halt-free payload). -/
theorem c8_hooks_execute_in_priority_order_witness :
    (execute_phase (fun _ _ => some []) (register_hooks [hook_p50, hook_p10, hook_p90])
        HookPhase.PRE_PROMPT none pay0).2
        = List.insertionSort hook_le
            (relevant_hooks [hook_p50, hook_p10, hook_p90] HookPhase.PRE_PROMPT none)
      ∧ List.Sorted hook_le
          (execute_phase (fun _ _ => some []) (register_hooks [hook_p50, hook_p10, hook_p90])
            HookPhase.PRE_PROMPT none pay0).2 :=
  c8_hooks_execute_in_priority_order (fun _ _ => some []) [hook_p50, hook_p10, hook_p90]
    HookPhase.PRE_PROMPT none pay0 (fun _ _ => rfl)

/-- The ordering example evaluated concretely: priorities [50, 10, 90] at
registration run as [10, 50, 90]. -/
theorem hook_order_example :
    ((execute_phase (fun _ _ => some []) (register_hooks [hook_p50, hook_p10, hook_p90])
        HookPhase.PRE_PROMPT none pay0).2).map Hook.id
      = ["hook_p10", "hook_p50", "hook_p90"] := by
  decide

/-- Counterexample to claim C9 as stated: the claim says a hook returning an
empty or `None` payload stops the phase.  `execute_phase` only stops on `None`
or on a truthy `_halt` entry: here `hook_a` returns the empty payload (an
empty dict) and `hook_b` is still invoked afterwards. -/
theorem c9_empty_payload_counterexample :
    run_empty hook_a pay0 = some []
      ∧ (execute_phase run_empty (register_hooks [hook_a, hook_b])
          HookPhase.PRE_PROMPT none pay0).2 = [hook_a, hook_b]
      ∧ (execute_phase run_empty (register_hooks [hook_a, hook_b])
          HookPhase.PRE_PROMPT none pay0).2 ≠ [hook_a] := by
  refine ⟨rfl, by decide, by decide⟩

/-- Claim C9 (corrected): if, after a halt-free prefix of the phase's hook
order, a hook's execution signals a halt - it returns `None` or a payload
whose `_halt` entry is truthy (an empty but non-`None` payload does not
signal) - then no later hook of the phase is invoked and `execute_phase`
returns that hook's result as the last payload. -/
theorem c9_halt_stops_iteration (run : Hook → Payload → Option Payload)
    (hooks : List Hook) (phase : HookPhase) (tool : Option String)
    (p q : Payload) (pre t : List Hook) (hk : Hook)
    (hsplit : relevant_hooks hooks phase tool = pre ++ hk :: t)
    (hpre : run_hooks run pre p = (some q, pre))
    (hq : get_truthy q "_halt" = false)
    (hstop : halt_signal (run hk q) = true) :
    execute_phase run hooks phase tool p = (run hk q, pre ++ [hk]) := by
  unfold execute_phase
  rw [hsplit]
  exact run_hooks_halt_append run pre hk t p q hpre hq hstop

/-- Witness for C9: `hook_a` returns a payload with a truthy `_halt` marker,
so the phase stops after it and `hook_b` is never invoked. -/
theorem c9_halt_stops_iteration_witness :
    execute_phase run_halting (register_hooks [hook_a, hook_b])
        HookPhase.PRE_PROMPT none pay0 = (run_halting hook_a pay0, [] ++ [hook_a]) :=
  c9_halt_stops_iteration run_halting (register_hooks [hook_a, hook_b])
    HookPhase.PRE_PROMPT none pay0 pay0 [] [hook_b] hook_a
    (by decide) rfl (by decide) (by decide)

/-- Claim C10 (confirmed): calling `execute_phase` for `PRE_TOOL` with a
falsy `target_tool` (`None` or the empty string) applies no target-tool
filtering at all: the selected hooks are exactly the enabled `PRE_TOOL`
hooks - whatever their target filters name - and, with the source's
placeholder hook execution and a halt-free payload, all of them run. -/
theorem c10_no_tool_no_filter (manifest : List Hook) (tool : Option String) (p : Payload)
    (ht : tool = none ∨ tool = some "")
    (hp : get_truthy p "_halt" = false) :
    relevant_hooks (register_hooks manifest) HookPhase.PRE_TOOL tool
        = (register_hooks manifest).filter
            (fun h => decide (h.phase = HookPhase.PRE_TOOL) && h.enabled)
      ∧ (execute_phase execute_hook_stub (register_hooks manifest)
          HookPhase.PRE_TOOL tool p).2
        = (register_hooks manifest).filter
            (fun h => decide (h.phase = HookPhase.PRE_TOOL) && h.enabled) := by
  have htool : opt_tool_truthy tool = false := by
    rcases ht with rfl | rfl <;> rfl
  have hsel : relevant_hooks (register_hooks manifest) HookPhase.PRE_TOOL tool
      = (register_hooks manifest).filter
          (fun h => decide (h.phase = HookPhase.PRE_TOOL) && h.enabled) := by
    simp [relevant_hooks, htool]
  refine ⟨hsel, ?_⟩
  unfold execute_phase
  rw [hsel, run_hooks_stub p hp]

/-- Witness for C10: with `target_tool = None`, the enabled `PRE_TOOL` hook
whose target filter names the tool `grep` is selected and runs anyway. -/
theorem c10_no_tool_no_filter_witness :
    relevant_hooks (register_hooks [hook_targeted, hook_untargeted])
        HookPhase.PRE_TOOL none
        = (register_hooks [hook_targeted, hook_untargeted]).filter
            (fun h => decide (h.phase = HookPhase.PRE_TOOL) && h.enabled)
      ∧ (execute_phase execute_hook_stub (register_hooks [hook_targeted, hook_untargeted])
          HookPhase.PRE_TOOL none pay0).2
        = (register_hooks [hook_targeted, hook_untargeted]).filter
            (fun h => decide (h.phase = HookPhase.PRE_TOOL) && h.enabled) :=
  c10_no_tool_no_filter [hook_targeted, hook_untargeted] none pay0 (Or.inl rfl) (by decide)

end AgentPayroll
